import Mathlib

/-!
# Verification of the solace-vault-plugin password-rotation backend

A shallow embedding of the Go sources of `solace-vault-plugin`:

* `password.go` — `generatePassword` (as listed in
  `docs/plans/2026-02-01-solace-vault-plugin-implementation.md`);
* `semp_client.go` — `escapeXML`, `buildChangePasswordXML`,
  `SEMPClient.ChangePassword`;
* `path_rotate.go` — `rotateRole`;
* `path_roles.go` — `pathRolesWrite`;
* `backend.go` — `periodicFunc`;
* `types.go` / `storage.go` — the data model and the role/broker stores.

Machine integers are modelled as `Nat` (no Go value here approaches an
overflow boundary), `time.Time` as a `Nat` whose zero value is `0`
(`IsZero` becomes `= 0`, `After` becomes `>`), and `time.Duration` as a
`Nat`.  Randomness (`crypto/rand`) is an explicit oracle `Nat → Nat`;
`rand.Int(rand.Reader, n)` is the oracle value reduced `% n`, which is
exactly its guaranteed range.  The HTTP exchange performed by
`ChangePassword` is abstracted as an `HTTPOutcome` (transport error, or a
status code with a body) and Go's lenient `xml.Unmarshal` as an explicit
parse function `String → Except String SempReply`; everything downstream
of those two points is translated line by line from the Go control flow.
-/

/-! ## Generic list helpers (segments and association lists) -/

/-- `startsWithSeg xs ys` holds when `xs` is an initial segment of `ys`. -/
def startsWithSeg : List Char → List Char → Bool
  | [], _ => true
  | _ :: _, [] => false
  | x :: xs, y :: ys => x = y && startsWithSeg xs ys

/-- `containsSeg xs ys` holds when `xs` occurs contiguously inside `ys`
(the model of Go's `strings.Contains`). -/
def containsSeg : List Char → List Char → Bool
  | xs, [] => xs.isEmpty
  | xs, y :: ys => startsWithSeg xs (y :: ys) || containsSeg xs ys

/-- Lookup in a string-keyed association list (the model of a Vault
storage view under one key prefix). -/
def alookup {α : Type} : List (String × α) → String → Option α
  | [], _ => none
  | (k, v) :: rest, n => if k = n then some v else alookup rest n

/-- Store under a key: replace the first binding in place, or append.
Models a `Put` into Vault storage. -/
def aupdate {α : Type} : List (String × α) → String → α → List (String × α)
  | [], n, v => [(n, v)]
  | (k, old) :: rest, n, v =>
    if k = n then (k, v) :: rest else (k, old) :: aupdate rest n v

/-! ## `password.go` — `generatePassword`

Translated from the implementation listed at
`docs/plans/2026-02-01-solace-vault-plugin-implementation.md:2255`:
a minimum-length check (`length < 16` errors), then `length` independent
draws from `passwordCharset` via `rand.Int(rand.Reader, charsetLen)`.
There is no maximum-length check in the code. -/

/-- The Go constant `passwordCharset`
(comment in the source: Solace constraints exclude certain characters). -/
def passwordCharset : String :=
  "abcdefghijklmnopqrstuvwxyzABCDEFGHIJKLMNOPQRSTUVWXYZ0123456789!@#$%^-_=+.~"

/-- The characters the source's comment says Solace passwords must
exclude: colon, parens, double quote, semicolon, apostrophe, angle
brackets, comma, backquote, backslash, star, ampersand, pipe. -/
def excludedPasswordChars : List Char :=
  [':', '(', ')', '"', ';', '\'', '<', '>', ',', Char.ofNat 96, '\\', '*', '&', '|']

/-- `generatePassword` from `password.go`.  `rands i` is the `i`-th draw
of `rand.Int(rand.Reader, charsetLen)`, reduced modulo the charset
length exactly as that call guarantees. -/
def generatePassword (rands : Nat → Nat) (length : Nat) : Except String String :=
  if length < 16 then
    .error ("password length must be at least 16, got " ++ toString length)
  else
    .ok (String.mk ((List.range length).map
      (fun i => passwordCharset.data.getD (rands i % passwordCharset.data.length) 'a')))

/-! Sanity checks on the embedding. -/

example : (generatePassword (fun _ => 0) 15).isOk = false := by decide

example : (generatePassword (fun _ => 3) 16).isOk = true := by decide

/-! ## `semp_client.go` — XML escaping and request construction -/

/-- Go's `xml.isInCharacterRange`: the XML 1.0 valid character ranges. -/
def xmlValidChar (c : Char) : Bool :=
  c.toNat = 0x09 || c.toNat = 0x0A || c.toNat = 0x0D ||
  (0x20 ≤ c.toNat && c.toNat ≤ 0xD7FF) ||
  (0xE000 ≤ c.toNat && c.toNat ≤ 0xFFFD) ||
  (0x10000 ≤ c.toNat && c.toNat ≤ 0x10FFFF)

/-- Per-character escaping of Go's `xml.EscapeText`: the five markup
characters and the three whitespace controls become character
references; a character outside the XML range becomes U+FFFD. -/
def escapeChar (c : Char) : List Char :=
  if c = '"' then "&#34;".data
  else if c = '\'' then "&#39;".data
  else if c = '&' then "&amp;".data
  else if c = '<' then "&lt;".data
  else if c = '>' then "&gt;".data
  else if c = Char.ofNat 9 then "&#x9;".data
  else if c = Char.ofNat 10 then "&#xA;".data
  else if c = Char.ofNat 13 then "&#xD;".data
  else if xmlValidChar c then [c]
  else [Char.ofNat 0xFFFD]

/-- `xml.EscapeText` over a whole character list. -/
def escapeList : List Char → List Char
  | [] => []
  | c :: rest => escapeChar c ++ escapeList rest

/-- `escapeXML` from `semp_client.go` (`xml.EscapeText` into a builder). -/
def escapeXML (s : String) : String :=
  String.mk (escapeList s.data)

/-- `buildChangePasswordXML` from `semp_client.go`: the SEMP v1
change-password RPC document, every supplied string escaped. -/
def buildChangePasswordXML (sempVersion username password : String) : String :=
  (if sempVersion ≠ "" then
    "<rpc semp-version=\"" ++ escapeXML sempVersion ++ "\">"
  else
    "<rpc>")
  ++ "<username><name>" ++ escapeXML username
  ++ "</name><change-password><password>" ++ escapeXML password
  ++ "</password></change-password></username></rpc>"

/-- Inverse of `escapeChar`/`escapeList`: decode exactly the character
references the escaper emits, leaving everything else untouched.  Used
to state that supplied strings appear inside the document as character
data denoting the original string. -/
def unescapeList : List Char → List Char
  | [] => []
  | '&' :: '#' :: '3' :: '4' :: ';' :: rest => '"' :: unescapeList rest
  | '&' :: '#' :: '3' :: '9' :: ';' :: rest => '\'' :: unescapeList rest
  | '&' :: 'a' :: 'm' :: 'p' :: ';' :: rest => '&' :: unescapeList rest
  | '&' :: 'l' :: 't' :: ';' :: rest => '<' :: unescapeList rest
  | '&' :: 'g' :: 't' :: ';' :: rest => '>' :: unescapeList rest
  | '&' :: '#' :: 'x' :: '9' :: ';' :: rest => Char.ofNat 9 :: unescapeList rest
  | '&' :: '#' :: 'x' :: 'A' :: ';' :: rest => Char.ofNat 10 :: unescapeList rest
  | '&' :: '#' :: 'x' :: 'D' :: ';' :: rest => Char.ofNat 13 :: unescapeList rest
  | c :: rest => c :: unescapeList rest

/-- `unescapeList` lifted to strings. -/
def unescapeXML (s : String) : String :=
  String.mk (unescapeList s.data)

/-- Split a character list at the first occurrence of `c`, consuming it:
`some (before, after)`, or `none` when `c` does not occur.  Used by the
reference parser to delimit attribute values and element content. -/
def splitAtChar (c : Char) : List Char → Option (List Char × List Char)
  | [] => none
  | x :: xs =>
    if x = c then some ([], xs)
    else (splitAtChar c xs).map (fun p => (x :: p.1, p.2))

/-- Consume an expected literal from the front of a character list. -/
def dropLit : List Char → List Char → Option (List Char)
  | [], l => some l
  | _ :: _, [] => none
  | x :: xs, y :: ys => if x = y then dropLit xs ys else none

/-- A strict reader for the exact document shape `buildChangePasswordXML`
is meant to produce: `<rpc>` (optionally with a `semp-version`
attribute), then `<username><name>…</name>
<change-password><password>…</password></change-password></username>
</rpc>`, nothing more.  It returns the raw (still escaped) attribute
value and the two element contents.  A document accepted by this reader
is well-formed XML of the expected shape, with the three supplied
strings confined to their elements. -/
def parseChangePasswordXML (doc : String) : Option (String × String × String) :=
  let step1 : Option (List Char × List Char) :=
    match dropLit "<rpc semp-version=\"".data doc.data with
    | some r1 =>
      match splitAtChar '"' r1 with
      | none => none
      | some (v, r2) =>
        match dropLit ">".data r2 with
        | none => none
        | some r3 => some (v, r3)
    | none =>
      match dropLit "<rpc>".data doc.data with
      | none => none
      | some r1 => some ([], r1)
  match step1 with
  | none => none
  | some (ver, rest) =>
    match dropLit "<username><name>".data rest with
    | none => none
    | some rest =>
      match splitAtChar '<' rest with
      | none => none
      | some (user, rest) =>
        match dropLit "/name><change-password><password>".data rest with
        | none => none
        | some rest =>
          match splitAtChar '<' rest with
          | none => none
          | some (pass, rest) =>
            match dropLit "/password></change-password></username></rpc>".data rest with
            | none => none
            | some rest =>
              if rest = [] then some (String.mk ver, String.mk user, String.mk pass)
              else none

example :
    parseChangePasswordXML (buildChangePasswordXML "soltr/10_4" "myuser" "mypass") =
      some ("soltr/10_4", "myuser", "mypass") := by decide

example :
    buildChangePasswordXML "" "user</name><inject>" "pass&word" =
      "<rpc><username><name>user&lt;/name&gt;&lt;inject&gt;</name><change-password><password>pass&amp;word</password></change-password></username></rpc>" := by
  decide

example :
    buildChangePasswordXML "ver\"1.0" "user" "pass" =
      "<rpc semp-version=\"ver&#34;1.0\"><username><name>user</name><change-password><password>pass</password></change-password></username></rpc>" := by
  decide

/-! ## `types.go` — data model -/

/-- `BrokerConfig` from `types.go`. -/
structure BrokerConfig where
  sempURL : String
  adminUsername : String
  adminPassword : String
  sempVersion : String
  tlsSkipVerify : Bool
deriving DecidableEq, Repr

/-- `RoleEntry` from `types.go`.  `rotationPeriod` is a `time.Duration`
and `lastRotated` a `time.Time`, both as `Nat` with `0` the zero value. -/
structure RoleEntry where
  broker : String
  cliUsername : String
  rotationPeriod : Nat
  passwordLength : Nat
  password : String
  lastRotated : Nat
deriving DecidableEq, Repr

/-! ## `semp_client.go` — the SEMP v1 client -/

/-- The `<execute-result code=…/>` and `<parse-error>` fields
`ChangePassword` reads out of the reply (`sempReply` in the source;
absent elements decode to the empty string, as with `xml.Unmarshal`). -/
structure SempReply where
  executeResultCode : String
  parseError : String
deriving DecidableEq, Repr

/-- The observable outcome of the HTTP POST `ChangePassword` performs:
either the transport fails outright, or a status code and body arrive. -/
inductive HTTPOutcome where
  | transportError (msg : String)
  | response (status : Nat) (body : String)
deriving DecidableEq, Repr

/-- `SEMPClient` from `semp_client.go` (the HTTP handle itself is
abstracted away; the fields copied from the config remain). -/
structure SEMPClient where
  sempURL : String
  adminUsername : String
  adminPassword : String
  sempVersion : String
  tlsSkipVerify : Bool
deriving DecidableEq, Repr

/-- `NewSEMPClient` from `semp_client.go`: copies the broker config into
the client. -/
def NewSEMPClient (config : BrokerConfig) : SEMPClient :=
  { sempURL := config.sempURL
    adminUsername := config.adminUsername
    adminPassword := config.adminPassword
    sempVersion := config.sempVersion
    tlsSkipVerify := config.tlsSkipVerify }

/-- `SEMPClient.ChangePassword` from `semp_client.go`, with the wire
round-trip abstracted: `parse` stands for `xml.Unmarshal` into
`sempReply` and `outcome` for what `HTTPClient.Do` plus the body read
produced.  Everything else — the error classification and every error
message — follows the Go function line by line:

* a transport error is wrapped as `SEMP request to <url> failed: …`;
* a status other than 200 (`http.StatusOK`) fails with
  `SEMP returned HTTP <code>: <raw body>`;
* a body `xml.Unmarshal` rejects fails with `parsing SEMP response: …`;
* an `execute-result` code other than `"ok"` fails with
  `SEMP command failed: …` (the `parse-error` text when present,
  otherwise the offending code);
* only status 200 with a parsed reply whose code is `"ok"` succeeds. -/
def SEMPClient.ChangePassword (c : SEMPClient)
    (parse : String → Except String SempReply) (outcome : HTTPOutcome)
    (cliUsername newPassword : String) : Except String Unit :=
  let _body := buildChangePasswordXML c.sempVersion cliUsername newPassword
  match outcome with
  | .transportError e => .error ("SEMP request to " ++ c.sempURL ++ " failed: " ++ e)
  | .response status respBody =>
    if status ≠ 200 then
      .error ("SEMP returned HTTP " ++ toString status ++ ": " ++ respBody)
    else
      match parse respBody with
      | .error e => .error ("parsing SEMP response: " ++ e)
      | .ok reply =>
        if reply.executeResultCode ≠ "ok" then
          .error ("SEMP command failed: " ++
            (if reply.parseError ≠ "" then reply.parseError
             else "execute-result code=\"" ++ reply.executeResultCode ++ "\""))
        else .ok ()

/-! ## `storage.go` / `backend.go` — stored state and the environment -/

/-- The contents of Vault storage seen through `storage.go`: the
`config/brokers/` entries and the `roles/` entries, as association
lists keyed by name (`listRoles` returns the keys in order). -/
structure BackendState where
  brokers : List (String × BrokerConfig)
  roles : List (String × RoleEntry)
deriving DecidableEq, Repr

/-- `getRole` from `storage.go`. -/
def getRole (st : BackendState) (name : String) : Option RoleEntry :=
  alookup st.roles name

/-- `getBroker` from `storage.go`. -/
def getBroker (st : BackendState) (name : String) : Option BrokerConfig :=
  alookup st.brokers name

/-- The ambient effects one `rotateRole` call consumes: the broker's
response to the SEMP POST, the XML decoder, the entropy stream, the
clock (`time.Now().UTC()`, never the zero time in Go), and whether the
`putRole` storage write succeeds (`none`) or fails with a message. -/
structure RotateEnv where
  remote : HTTPOutcome
  parse : String → Except String SempReply
  rands : Nat → Nat
  now : Nat
  putResult : Option String

/-- One structured log line emitted through `b.Logger()`. -/
structure LogEntry where
  msg : String
  fields : List (String × String)
deriving DecidableEq, Repr

/-- The `(*logical.Response, error)` pair a path handler returns:
a user-facing `logical.ErrorResponse`, a Go `error`, or success. -/
inductive RotateResult where
  | errorResponse (msg : String)
  | goError (msg : String)
  | ok
deriving DecidableEq, Repr

/-- Everything observable about one `rotateRole` call: its return
value, the storage state after it, the log lines it emitted, and how
many remote `ChangePassword` calls it made. -/
structure RotateOutcome where
  result : RotateResult
  state : BackendState
  log : List LogEntry
  remoteCalls : Nat
deriving Repr

/-- Go's `%q` verb as used on the plain names in this code base. -/
def goQuote (s : String) : String := "\"" ++ s ++ "\""

/-! ## `path_rotate.go` — `rotateRole` -/

/-- The Go constant `defaultPasswordLength` from `path_rotate.go`. -/
def defaultPasswordLength : Nat := 32

/-- `rotateRole` from `path_rotate.go`, translated clause by clause:
look up the role, look up its broker, generate a candidate password at
`defaultPasswordLength`, call `ChangePassword`; on remote failure log
the diagnostic and answer with a generic `logical.ErrorResponse`; on
remote success overwrite `Password`/`LastRotated` and `putRole`; if
that write fails, log the full context (including the new password)
and return the `manual recovery required` Go error. -/
def rotateRole (env : RotateEnv) (st : BackendState) (name : String) : RotateOutcome :=
  match getRole st name with
  | none => ⟨.errorResponse ("role " ++ goQuote name ++ " not found"), st, [], 0⟩
  | some role =>
    match getBroker st role.broker with
    | none =>
      ⟨.errorResponse ("broker " ++ goQuote role.broker ++ " not found for role " ++
        goQuote name), st, [], 0⟩
    | some brokerConfig =>
      match generatePassword env.rands defaultPasswordLength with
      | .error e => ⟨.goError ("generating password: " ++ e), st, [], 0⟩
      | .ok newPassword =>
        let client := NewSEMPClient brokerConfig
        match client.ChangePassword env.parse env.remote role.cliUsername newPassword with
        | .error e =>
          ⟨.errorResponse ("failed to rotate password for role " ++ goQuote name ++
             " on broker " ++ goQuote role.broker),
           st,
           [⟨"SEMP password change failed",
             [("role", name), ("cli_username", role.cliUsername),
              ("broker", role.broker), ("error", e)]⟩],
           1⟩
        | .ok _ =>
          let role2 := { role with password := newPassword, lastRotated := env.now }
          match env.putResult with
          | none =>
            ⟨.ok, { st with roles := aupdate st.roles name role2 }, [], 1⟩
          | some perr =>
            ⟨.goError ("storing rotated password for " ++ goQuote name ++
               ": broker password was changed but Vault storage failed, " ++
               "manual recovery required: " ++ perr),
             st,
             [⟨"password changed on broker but failed to store in Vault; " ++
                 "manual recovery required",
               [("role", name), ("cli_username", role.cliUsername),
                ("broker", role.broker), ("new_password", newPassword),
                ("error", perr)]⟩],
             1⟩

/-! ## `path_roles.go` — `pathRolesWrite` -/

/-- `pathRolesWrite` from `path_roles.go`: validate the two required
fields, require the referenced broker to exist, then build a fresh
`RoleEntry` from the request fields — note that no `password_length`
field exists in the path schema, so the stored `passwordLength` is
always the zero value — copying `Password`/`LastRotated` from an
existing entry when updating, and store it. -/
def pathRolesWrite (st : BackendState) (name broker cliUsername : String)
    (rotationPeriod : Nat) : RotateResult × BackendState :=
  if broker = "" then (.errorResponse "broker is required", st)
  else if cliUsername = "" then (.errorResponse "cli_username is required", st)
  else
    match getBroker st broker with
    | none => (.errorResponse ("broker " ++ goQuote broker ++ " not found"), st)
    | some _ =>
      let existing := getRole st name
      let base : RoleEntry :=
        { broker := broker, cliUsername := cliUsername,
          rotationPeriod := rotationPeriod, passwordLength := 0,
          password := "", lastRotated := 0 }
      let role :=
        match existing with
        | some e => { base with password := e.password, lastRotated := e.lastRotated }
        | none => base
      (.ok, { st with roles := aupdate st.roles name role })

/-! ## `backend.go` — `periodicFunc` -/

/-- The loop body chain of `periodicFunc` over the listed role names,
threading storage through the rotations it triggers.  A role is skipped
when it is missing, has `RotationPeriod == 0`, or has a zero
`LastRotated`; otherwise it is rotated exactly when
`time.Now().UTC().After(LastRotated.Add(RotationPeriod))`, i.e. when
`lastRotated + rotationPeriod < now` strictly.  Returns the final state
and the names that were driven through `rotateRole`. -/
def periodicGo (env : RotateEnv) : List String → BackendState →
    BackendState × List String
  | [], st => (st, [])
  | n :: ns, st =>
    match getRole st n with
    | none => periodicGo env ns st
    | some role =>
      if role.rotationPeriod = 0 then periodicGo env ns st
      else if role.lastRotated = 0 then periodicGo env ns st
      else if role.lastRotated + role.rotationPeriod < env.now then
        let o := rotateRole env st n
        let rest := periodicGo env ns o.state
        (rest.1, n :: rest.2)
      else periodicGo env ns st

/-- `periodicFunc` from `backend.go`: list the roles, then run the loop. -/
def periodicFunc (env : RotateEnv) (st : BackendState) :
    BackendState × List String :=
  periodicGo env (st.roles.map Prod.fst) st

/-! ## Derived definitions used by the statements -/

/-- The password `rotateRole` generates: `generatePassword` at
`defaultPasswordLength` with the given entropy stream (which never
errors, since `defaultPasswordLength = 32 ≥ 16`). -/
def rotationPassword (rands : Nat → Nat) : String :=
  String.mk ((List.range defaultPasswordLength).map
    (fun i => passwordCharset.data.getD (rands i % passwordCharset.data.length) 'a'))

/-- Whether a remote exchange counts as success for `ChangePassword`:
status 200 and a parsed reply whose `execute-result` code is `"ok"`. -/
def remoteOk (parse : String → Except String SempReply) : HTTPOutcome → Bool
  | .transportError _ => false
  | .response status body =>
    status = 200 &&
      (match parse body with
       | .error _ => false
       | .ok reply => reply.executeResultCode = "ok")

/-- The sanitized caller-facing message `rotateRole` answers with on a
remote `ChangePassword` failure — a function of the role and broker
names only, never of the remote diagnostic. -/
def rotateFailMsg (name broker : String) : String :=
  "failed to rotate password for role " ++ goQuote name ++
    " on broker " ++ goQuote broker

/-- The stored-state invariant of claim C10: every stored role has an
empty password exactly when its last-rotated timestamp is the zero
value. -/
def stateInvariant (st : BackendState) : Prop :=
  ∀ p ∈ st.roles, ((p : String × RoleEntry).2.password = "" ↔ p.2.lastRotated = 0)

instance stateInvariantDecidable (st : BackendState) : Decidable (stateInvariant st) :=
  inferInstanceAs (Decidable (∀ p ∈ st.roles,
    ((p : String × RoleEntry).2.password = "" ↔ p.2.lastRotated = 0)))

/-- A broker configuration used by the concrete witnesses (mirrors the
`test-broker` of the Go tests). -/
def testBroker : BrokerConfig :=
  { sempURL := "http://broker:8080", adminUsername := "admin",
    adminPassword := "secret", sempVersion := "soltr/10_4",
    tlsSkipVerify := false }

/-- A role used by the concrete witnesses (mirrors `test-role` of the
Go tests: never rotated yet). -/
def testRole : RoleEntry :=
  { broker := "test-broker", cliUsername := "monitor",
    rotationPeriod := 0, passwordLength := 0,
    password := "", lastRotated := 0 }

/-- A one-broker, one-role storage state for the concrete witnesses. -/
def testState : BackendState :=
  { brokers := [("test-broker", testBroker)],
    roles := [("test-role", testRole)] }

/-- An XML decoder for the concrete witnesses: accepts the two reply
bodies the Go tests use and rejects everything else. -/
def testParse (body : String) : Except String SempReply :=
  if body = "<rpc-reply><execute-result code=\"ok\"/></rpc-reply>" then
    .ok { executeResultCode := "ok", parseError := "" }
  else if body = "<rpc-reply><execute-result code=\"fail\"/><parse-error>Invalid username</parse-error></rpc-reply>" then
    .ok { executeResultCode := "fail", parseError := "Invalid username" }
  else
    .error "EOF"

/-- The success reply body the Go tests serve. -/
def okBody : String := "<rpc-reply><execute-result code=\"ok\"/></rpc-reply>"

/-- The failure reply body of the remote-side-rejection scenario. -/
def failBody : String :=
  "<rpc-reply><execute-result code=\"fail\"/><parse-error>Invalid username</parse-error></rpc-reply>"

/-- A rotation environment in which everything succeeds. -/
def envOk : RotateEnv :=
  { remote := .response 200 okBody, parse := testParse, rands := fun _ => 0,
    now := 1700000000, putResult := none }

/-- A second all-success environment: later clock, fresh entropy. -/
def envOk2 : RotateEnv :=
  { remote := .response 200 okBody, parse := testParse, rands := fun _ => 1,
    now := 1700000060, putResult := none }

/-- An environment whose remote rejects the command at HTTP 200
(`execute-result code="fail"`, diagnostic `Invalid username`). -/
def envFail : RotateEnv :=
  { remote := .response 200 failBody, parse := testParse, rands := fun _ => 0,
    now := 1700000000, putResult := none }

/-- An environment whose remote is unreachable. -/
def envTransport : RotateEnv :=
  { remote := .transportError "connection refused", parse := testParse,
    rands := fun _ => 0, now := 1700000000, putResult := none }

/-- An environment where the remote change succeeds but the storage
write fails. -/
def envPutFail : RotateEnv :=
  { remote := .response 200 okBody, parse := testParse, rands := fun _ => 0,
    now := 1700000000, putResult := some "storage backend unavailable" }

/-- A decoder that parses every body to an ok reply (used to exhibit
the 2xx-versus-200 boundary). -/
def parseOkAny : String → Except String SempReply :=
  fun _ => .ok { executeResultCode := "ok", parseError := "" }

/-- A role whose stored `passwordLength` field is 64. -/
def role64 : RoleEntry :=
  { broker := "test-broker", cliUsername := "monitor", rotationPeriod := 0,
    passwordLength := 64, password := "", lastRotated := 0 }

/-- State holding `role64`. -/
def state64 : BackendState :=
  { brokers := [("test-broker", testBroker)], roles := [("role64", role64)] }

/-- A role due at the boundary: rotated at 10 with period 5. -/
def roleDue : RoleEntry :=
  { broker := "test-broker", cliUsername := "monitor", rotationPeriod := 5,
    passwordLength := 0, password := "secret0", lastRotated := 10 }

/-- State holding `roleDue`. -/
def stateDue : BackendState :=
  { brokers := [("test-broker", testBroker)], roles := [("due-role", roleDue)] }

/-- A tick environment whose clock reads exactly
`roleDue.lastRotated + roleDue.rotationPeriod`. -/
def envBoundary : RotateEnv :=
  { remote := .response 200 okBody, parse := testParse, rands := fun _ => 0,
    now := 15, putResult := none }

/-! ## Helper lemmas -/

theorem alookup_aupdate_self {α : Type} (l : List (String × α)) (n : String) (v : α) :
    alookup (aupdate l n v) n = some v := by
  induction l with
  | nil => simp [aupdate, alookup]
  | cons p rest ih =>
    obtain ⟨k, old⟩ := p
    by_cases hk : k = n
    · simp [aupdate, hk, alookup]
    · simp [aupdate, hk, alookup, ih]

theorem alookup_aupdate_ne {α : Type} (l : List (String × α)) (n m : String) (v : α)
    (h : m ≠ n) : alookup (aupdate l n v) m = alookup l m := by
  induction l with
  | nil =>
    have hnm : ¬ n = m := fun hnm => h hnm.symm
    simp [aupdate, alookup, hnm]
  | cons p rest ih =>
    obtain ⟨k, old⟩ := p
    by_cases hk : k = n
    · subst hk
      have hm : ¬ k = m := fun hkm => h hkm.symm
      simp [aupdate, alookup, hm]
    · simp only [aupdate, if_neg hk]
      by_cases hm : k = m
      · simp [alookup, hm]
      · simp [alookup, hm, ih]

theorem alookup_mem {α : Type} {l : List (String × α)} {n : String} {v : α}
    (h : alookup l n = some v) : (n, v) ∈ l := by
  induction l with
  | nil => simp [alookup] at h
  | cons p rest ih =>
    obtain ⟨k, old⟩ := p
    by_cases hk : k = n
    · subst hk
      simp [alookup] at h
      simp [h]
    · simp [alookup, hk] at h
      exact List.mem_cons_of_mem _ (ih h)

theorem alookup_mem_keys {α : Type} {l : List (String × α)} {n : String} {v : α}
    (h : alookup l n = some v) : n ∈ l.map Prod.fst := by
  have := alookup_mem h
  exact List.mem_map.mpr ⟨(n, v), this, rfl⟩

theorem mem_aupdate {α : Type} {l : List (String × α)} {n : String} {v : α}
    {p : String × α} (h : p ∈ aupdate l n v) : p ∈ l ∨ p.2 = v := by
  induction l with
  | nil =>
    simp [aupdate] at h
    simp [h]
  | cons q rest ih =>
    obtain ⟨k, old⟩ := q
    by_cases hk : k = n
    · simp [aupdate, hk] at h
      rcases h with h | h
      · simp [h]
      · exact Or.inl (List.mem_cons_of_mem _ h)
    · simp [aupdate, hk] at h
      rcases h with h | h
      · simp [h]
      · rcases ih h with h2 | h2
        · exact Or.inl (List.mem_cons_of_mem _ h2)
        · exact Or.inr h2

theorem startsWithSeg_append (xs l : List Char) :
    startsWithSeg xs (xs ++ l) = true := by
  induction xs with
  | nil => rfl
  | cons x xs ih => simp [startsWithSeg, ih]

theorem containsSeg_of_startsWithSeg {xs l : List Char}
    (h : startsWithSeg xs l = true) : containsSeg xs l = true := by
  cases l with
  | nil =>
    cases xs with
    | nil => rfl
    | cons x xs => simp [startsWithSeg] at h
  | cons y ys => simp [containsSeg, h]

theorem containsSeg_append (xs pre post : List Char) :
    containsSeg xs (pre ++ xs ++ post) = true := by
  induction pre with
  | nil =>
    simpa using containsSeg_of_startsWithSeg (startsWithSeg_append xs post)
  | cons p pre ih =>
    have hshape : (p :: pre) ++ xs ++ post = p :: (pre ++ xs ++ post) := by simp
    rw [hshape]
    simp only [containsSeg, Bool.or_eq_true]
    exact Or.inr ih

theorem passwordCharset_length_pos : 0 < passwordCharset.data.length := by decide

theorem generatePassword_char_mem (k : Nat) :
    passwordCharset.data.getD (k % passwordCharset.data.length) 'a' ∈
      passwordCharset.data := by
  have hlt : k % passwordCharset.data.length < passwordCharset.data.length :=
    Nat.mod_lt _ passwordCharset_length_pos
  rw [List.getD_eq_getElem _ _ hlt]
  exact List.getElem_mem _

theorem generatePassword_ok (rands : Nat → Nat) (length : Nat) (h : 16 ≤ length) :
    ∃ pw, generatePassword rands length = .ok pw ∧
      pw.length = length ∧ ∀ c ∈ pw.data, c ∈ passwordCharset.data := by
  have hnot : ¬ length < 16 := Nat.not_lt.mpr h
  refine ⟨String.mk ((List.range length).map
      (fun i => passwordCharset.data.getD (rands i % passwordCharset.data.length) 'a')),
    ?_, ?_, ?_⟩
  · simp only [generatePassword, if_neg hnot]
  · show ((List.range length).map _).length = length
    rw [List.length_map, List.length_range]
  · intro c hc
    rcases List.mem_map.mp hc with ⟨i, _, hi⟩
    rw [← hi]
    exact generatePassword_char_mem (rands i)

theorem generatePassword_fail (rands : Nat → Nat) (length : Nat) (h : length < 16) :
    (generatePassword rands length).isOk = false := by
  simp [generatePassword, h, Except.isOk, Except.toBool]

theorem passwordCharset_excluded_disjoint :
    ∀ c ∈ passwordCharset.data, c ∉ excludedPasswordChars := by decide

theorem generatePassword_default (rands : Nat → Nat) :
    generatePassword rands defaultPasswordLength = .ok (rotationPassword rands) := by
  rfl

theorem rotationPassword_length (rands : Nat → Nat) :
    (rotationPassword rands).length = 32 := by
  show ((List.range defaultPasswordLength).map _).length = 32
  rw [List.length_map, List.length_range]
  rfl

theorem rotationPassword_ne_empty (rands : Nat → Nat) :
    rotationPassword rands ≠ "" := by
  intro h
  have := rotationPassword_length rands
  rw [h] at this
  simp at this

theorem escapeChar_no_lt (c : Char) : '<' ∉ escapeChar c := by
  unfold escapeChar
  split_ifs with h1 h2 h3 h4 h5 h6 h7 h8 h9
  · decide
  · decide
  · decide
  · decide
  · decide
  · decide
  · decide
  · decide
  · intro hmem
    simp only [List.mem_singleton] at hmem
    exact h4 hmem.symm
  · decide

theorem escapeChar_no_quot (c : Char) : '"' ∉ escapeChar c := by
  unfold escapeChar
  split_ifs with h1 h2 h3 h4 h5 h6 h7 h8 h9
  · decide
  · decide
  · decide
  · decide
  · decide
  · decide
  · decide
  · decide
  · intro hmem
    simp only [List.mem_singleton] at hmem
    exact h1 hmem.symm
  · decide

theorem escapeList_no_lt (l : List Char) : '<' ∉ escapeList l := by
  induction l with
  | nil => simp [escapeList]
  | cons c rest ih =>
    simp only [escapeList, List.mem_append]
    rintro (h | h)
    · exact escapeChar_no_lt c h
    · exact ih h

theorem escapeList_no_quot (l : List Char) : '"' ∉ escapeList l := by
  induction l with
  | nil => simp [escapeList]
  | cons c rest ih =>
    simp only [escapeList, List.mem_append]
    rintro (h | h)
    · exact escapeChar_no_quot c h
    · exact ih h

theorem dropLit_append (xs l : List Char) : dropLit xs (xs ++ l) = some l := by
  induction xs with
  | nil => rfl
  | cons x xs ih => simp [dropLit, ih]

theorem dropLit_self (xs : List Char) : dropLit xs xs = some [] := by
  have := dropLit_append xs []
  simpa using this

theorem splitAtChar_append (c : Char) (xs : List Char) (h : c ∉ xs) (ys : List Char) :
    splitAtChar c (xs ++ c :: ys) = some (xs, ys) := by
  induction xs with
  | nil => simp [splitAtChar]
  | cons x xs ih =>
    have hx : ¬ x = c := fun hx => h (by simp [hx])
    have hxs : c ∉ xs := fun hc => h (List.mem_cons_of_mem _ hc)
    simp [splitAtChar, hx, ih hxs]

set_option maxHeartbeats 1600000 in
theorem unescapeList_cons_ne (c : Char) (l : List Char) (h : c ≠ '&') :
    unescapeList (c :: l) = c :: unescapeList l := by
  rw [unescapeList.eq_def]
  split <;> simp_all

theorem unescapeList_escapeChar (c : Char) (l : List Char) (hc : xmlValidChar c = true) :
    unescapeList (escapeChar c ++ l) = c :: unescapeList l := by
  by_cases h1 : c = '"'
  · subst h1; rfl
  by_cases h2 : c = '\''
  · subst h2; rfl
  by_cases h3 : c = '&'
  · subst h3; rfl
  by_cases h4 : c = '<'
  · subst h4; rfl
  by_cases h5 : c = '>'
  · subst h5; rfl
  by_cases h6 : c = Char.ofNat 9
  · subst h6; rfl
  by_cases h7 : c = Char.ofNat 10
  · subst h7; rfl
  by_cases h8 : c = Char.ofNat 13
  · subst h8; rfl
  have hesc : escapeChar c = [c] := by
    unfold escapeChar
    simp [h1, h2, h3, h4, h5, h6, h7, h8, hc]
  rw [hesc]
  exact unescapeList_cons_ne c l h3

theorem unescapeList_escapeList (l : List Char)
    (h : ∀ c ∈ l, xmlValidChar c = true) :
    unescapeList (escapeList l) = l := by
  induction l with
  | nil => rfl
  | cons c rest ih =>
    rw [escapeList, unescapeList_escapeChar c _ (h c (by simp))]
    rw [ih (fun d hd => h d (List.mem_cons_of_mem _ hd))]

theorem unescapeXML_escapeXML (s : String)
    (h : ∀ c ∈ s.data, xmlValidChar c = true) :
    unescapeXML (escapeXML s) = s := by
  show String.mk (unescapeList (escapeList s.data)) = s
  rw [unescapeList_escapeList s.data h]

theorem escapeXML_data (s : String) : (escapeXML s).data = escapeList s.data := rfl

theorem parse_shape_ver (doc : String) (ev eu ep : List Char)
    (hv : '"' ∉ ev) (hu : '<' ∉ eu) (hp : '<' ∉ ep)
    (hdoc : doc.data = "<rpc semp-version=\"".data ++ (ev ++ ('"' :: ('>' ::
      ("<username><name>".data ++ (eu ++ ('<' ::
      ("/name><change-password><password>".data ++ (ep ++ ('<' ::
      "/password></change-password></username></rpc>".data)))))))))) :
    parseChangePasswordXML doc = some (String.mk ev, String.mk eu, String.mk ep) := by
  have hgt : ∀ l : List Char, dropLit ">".data ('>' :: l) = some l := fun l => rfl
  unfold parseChangePasswordXML
  rw [hdoc]
  simp only [dropLit_append, splitAtChar_append _ _ hv, hgt,
    splitAtChar_append _ _ hu, splitAtChar_append _ _ hp, dropLit_self]
  rfl

theorem parse_shape_nover (doc : String) (eu ep : List Char)
    (hu : '<' ∉ eu) (hp : '<' ∉ ep)
    (hdoc : doc.data = "<rpc>".data ++
      ("<username><name>".data ++ (eu ++ ('<' ::
      ("/name><change-password><password>".data ++ (ep ++ ('<' ::
      "/password></change-password></username></rpc>".data))))))) :
    parseChangePasswordXML doc = some ("", String.mk eu, String.mk ep) := by
  have hfail : ∀ l : List Char,
      dropLit "<rpc semp-version=\"".data ("<rpc>".data ++ l) = none := fun l => rfl
  unfold parseChangePasswordXML
  rw [hdoc]
  simp only [hfail, dropLit_append, splitAtChar_append _ _ hu,
    splitAtChar_append _ _ hp, dropLit_self]
  rfl

theorem build_data_nover (u p : String) :
    (buildChangePasswordXML "" u p).data = "<rpc>".data ++
      ("<username><name>".data ++ (escapeList u.data ++ ('<' ::
      ("/name><change-password><password>".data ++ (escapeList p.data ++ ('<' ::
      "/password></change-password></username></rpc>".data)))))) := by
  unfold buildChangePasswordXML
  rw [if_neg (show ¬(("" : String) ≠ "") from by simp)]
  simp only [String.data_append, escapeXML_data, List.append_assoc, List.cons_append]

theorem build_data_ver (v u p : String) (hv : v ≠ "") :
    (buildChangePasswordXML v u p).data = "<rpc semp-version=\"".data ++
      (escapeList v.data ++ ('"' :: ('>' ::
      ("<username><name>".data ++ (escapeList u.data ++ ('<' ::
      ("/name><change-password><password>".data ++ (escapeList p.data ++ ('<' ::
      "/password></change-password></username></rpc>".data)))))))))  := by
  unfold buildChangePasswordXML
  rw [if_pos hv]
  simp only [String.data_append, escapeXML_data, List.append_assoc, List.cons_append,
    List.nil_append]

theorem parse_build (v u p : String) :
    parseChangePasswordXML (buildChangePasswordXML v u p) =
      some (escapeXML v, escapeXML u, escapeXML p) := by
  by_cases hv0 : v = ""
  · subst hv0
    exact parse_shape_nover _ _ _ (escapeList_no_lt _) (escapeList_no_lt _)
      (build_data_nover u p)
  · exact parse_shape_ver _ _ _ _ (escapeList_no_quot _) (escapeList_no_lt _)
      (escapeList_no_lt _) (build_data_ver v u p hv0)

theorem ChangePassword_ok_iff (c : SEMPClient) (parse : String → Except String SempReply)
    (outcome : HTTPOutcome) (u pw : String) :
    c.ChangePassword parse outcome u pw = .ok () ↔ remoteOk parse outcome = true := by
  cases outcome with
  | transportError e => simp [SEMPClient.ChangePassword, remoteOk]
  | response status body =>
    by_cases hs : status = 200
    · subst hs
      cases hparse : parse body with
      | error e => simp [SEMPClient.ChangePassword, remoteOk, hparse]
      | ok reply =>
        by_cases hcode : reply.executeResultCode = "ok"
        · simp [SEMPClient.ChangePassword, remoteOk, hparse, hcode]
        · simp [SEMPClient.ChangePassword, remoteOk, hparse, hcode]
    · simp [SEMPClient.ChangePassword, remoteOk, hs]

theorem rotateRole_remote_fail_spec (env : RotateEnv) (st : BackendState)
    (name : String) (role : RoleEntry) (cfg : BrokerConfig) (e : String)
    (hr : getRole st name = some role) (hb : getBroker st role.broker = some cfg)
    (hc : (NewSEMPClient cfg).ChangePassword env.parse env.remote role.cliUsername
      (rotationPassword env.rands) = .error e) :
    rotateRole env st name = ⟨.errorResponse (rotateFailMsg name role.broker), st,
      [⟨"SEMP password change failed",
        [("role", name), ("cli_username", role.cliUsername),
         ("broker", role.broker), ("error", e)]⟩], 1⟩ := by
  simp only [rotateRole, hr, hb, generatePassword_default, hc]
  rfl

theorem rotateRole_success_spec (env : RotateEnv) (st : BackendState)
    (name : String) (role : RoleEntry) (cfg : BrokerConfig)
    (hr : getRole st name = some role) (hb : getBroker st role.broker = some cfg)
    (hok : remoteOk env.parse env.remote = true) (hput : env.putResult = none) :
    rotateRole env st name = ⟨.ok,
      ⟨st.brokers, aupdate st.roles name { role with
        password := rotationPassword env.rands, lastRotated := env.now }⟩,
      [], 1⟩ := by
  have hc : (NewSEMPClient cfg).ChangePassword env.parse env.remote role.cliUsername
      (rotationPassword env.rands) = .ok () :=
    (ChangePassword_ok_iff _ _ _ _ _).mpr hok
  simp only [rotateRole, hr, hb, generatePassword_default, hc, hput]

theorem rotateRole_putfail_spec (env : RotateEnv) (st : BackendState)
    (name : String) (role : RoleEntry) (cfg : BrokerConfig) (perr : String)
    (hr : getRole st name = some role) (hb : getBroker st role.broker = some cfg)
    (hok : remoteOk env.parse env.remote = true) (hput : env.putResult = some perr) :
    rotateRole env st name = ⟨.goError ("storing rotated password for " ++ goQuote name ++
        ": broker password was changed but Vault storage failed, " ++
        "manual recovery required: " ++ perr),
      st,
      [⟨"password changed on broker but failed to store in Vault; " ++
          "manual recovery required",
        [("role", name), ("cli_username", role.cliUsername),
         ("broker", role.broker), ("new_password", rotationPassword env.rands),
         ("error", perr)]⟩], 1⟩ := by
  have hc : (NewSEMPClient cfg).ChangePassword env.parse env.remote role.cliUsername
      (rotationPassword env.rands) = .ok () :=
    (ChangePassword_ok_iff _ _ _ _ _).mpr hok
  simp only [rotateRole, hr, hb, generatePassword_default, hc, hput]

theorem rotateRole_getRole_ne (env : RotateEnv) (st : BackendState) (n m : String)
    (h : m ≠ n) : getRole (rotateRole env st n).state m = getRole st m := by
  cases hr : getRole st n with
  | none => simp only [rotateRole, hr]
  | some role =>
    cases hb : getBroker st role.broker with
    | none => simp only [rotateRole, hr, hb]
    | some cfg =>
      cases hc : (NewSEMPClient cfg).ChangePassword env.parse env.remote
          role.cliUsername (rotationPassword env.rands) with
      | error e => simp only [rotateRole, hr, hb, generatePassword_default, hc]
      | ok u =>
        cases hp : env.putResult with
        | none =>
          simp only [rotateRole, hr, hb, generatePassword_default, hc, hp]
          simp [getRole, alookup_aupdate_ne st.roles n m _ h]
        | some perr =>
          simp only [rotateRole, hr, hb, generatePassword_default, hc, hp]

theorem rotateRole_state_unchanged_of_remote_fail (env : RotateEnv)
    (st : BackendState) (name : String)
    (h : remoteOk env.parse env.remote = false) :
    (rotateRole env st name).state = st := by
  cases hr : getRole st name with
  | none => simp only [rotateRole, hr]
  | some role =>
    cases hb : getBroker st role.broker with
    | none => simp only [rotateRole, hr, hb]
    | some cfg =>
      cases hc : (NewSEMPClient cfg).ChangePassword env.parse env.remote
          role.cliUsername (rotationPassword env.rands) with
      | error e => simp only [rotateRole, hr, hb, generatePassword_default, hc]
      | ok u =>
        exfalso
        cases u
        have := (ChangePassword_ok_iff (NewSEMPClient cfg) env.parse env.remote
          role.cliUsername (rotationPassword env.rands)).mp hc
        rw [h] at this
        exact Bool.false_ne_true this

theorem periodicGo_rotated_subset (env : RotateEnv) (ns : List String) :
    ∀ (st : BackendState) (m : String), m ∈ (periodicGo env ns st).2 → m ∈ ns := by
  induction ns with
  | nil =>
    intro st m h
    simp [periodicGo] at h
  | cons n ns ih =>
    intro st m h
    cases hr : getRole st n with
    | none =>
      simp only [periodicGo, hr] at h
      exact List.mem_cons_of_mem _ (ih st m h)
    | some role =>
      by_cases h1 : role.rotationPeriod = 0
      · simp only [periodicGo, hr, if_pos h1] at h
        exact List.mem_cons_of_mem _ (ih st m h)
      · by_cases h2 : role.lastRotated = 0
        · simp only [periodicGo, hr, if_neg h1, if_pos h2] at h
          exact List.mem_cons_of_mem _ (ih st m h)
        · by_cases h3 : role.lastRotated + role.rotationPeriod < env.now
          · simp only [periodicGo, hr, if_neg h1, if_neg h2, if_pos h3,
              List.mem_cons] at h
            rcases h with h | h
            · exact h ▸ List.mem_cons_self _ _
            · exact List.mem_cons_of_mem _ (ih _ m h)
          · simp only [periodicGo, hr, if_neg h1, if_neg h2, if_neg h3] at h
            exact List.mem_cons_of_mem _ (ih st m h)

theorem periodicGo_mem_iff (env : RotateEnv) (ns : List String) :
    ∀ (st : BackendState) (name : String) (role : RoleEntry),
      ns.Nodup → name ∈ ns → getRole st name = some role →
      (name ∈ (periodicGo env ns st).2 ↔
        (role.rotationPeriod ≠ 0 ∧ role.lastRotated ≠ 0 ∧
         role.lastRotated + role.rotationPeriod < env.now)) := by
  induction ns with
  | nil =>
    intro st name role _ hmem
    simp at hmem
  | cons n ns ih =>
    intro st name role hnd hmem hget
    have hnotin : n ∉ ns := (List.nodup_cons.mp hnd).1
    have hnd2 : ns.Nodup := (List.nodup_cons.mp hnd).2
    by_cases hname : name = n
    · subst hname
      by_cases h1 : role.rotationPeriod = 0
      · have hres : periodicGo env (name :: ns) st = periodicGo env ns st := by
          simp only [periodicGo, hget, if_pos h1]
        rw [hres]
        constructor
        · intro hm
          exact absurd (periodicGo_rotated_subset env ns st name hm) hnotin
        · rintro ⟨ha, -, -⟩
          exact absurd h1 ha
      · by_cases h2 : role.lastRotated = 0
        · have hres : periodicGo env (name :: ns) st = periodicGo env ns st := by
            simp only [periodicGo, hget, if_neg h1, if_pos h2]
          rw [hres]
          constructor
          · intro hm
            exact absurd (periodicGo_rotated_subset env ns st name hm) hnotin
          · rintro ⟨-, ha, -⟩
            exact absurd h2 ha
        · by_cases h3 : role.lastRotated + role.rotationPeriod < env.now
          · have hres : (periodicGo env (name :: ns) st).2 =
                name :: (periodicGo env ns (rotateRole env st name).state).2 := by
              simp only [periodicGo, hget, if_neg h1, if_neg h2, if_pos h3]
            rw [hres]
            constructor
            · intro _
              exact ⟨h1, h2, h3⟩
            · intro _
              exact List.mem_cons_self _ _
          · have hres : periodicGo env (name :: ns) st = periodicGo env ns st := by
              simp only [periodicGo, hget, if_neg h1, if_neg h2, if_neg h3]
            rw [hres]
            constructor
            · intro hm
              exact absurd (periodicGo_rotated_subset env ns st name hm) hnotin
            · rintro ⟨-, -, ha⟩
              exact absurd ha h3
    · have hmem2 : name ∈ ns := by
        rcases List.mem_cons.mp hmem with h | h
        · exact absurd h hname
        · exact h
      cases hr : getRole st n with
      | none =>
        have hres : periodicGo env (n :: ns) st = periodicGo env ns st := by
          simp only [periodicGo, hr]
        rw [hres]
        exact ih st name role hnd2 hmem2 hget
      | some rn =>
        by_cases h1 : rn.rotationPeriod = 0
        · have hres : periodicGo env (n :: ns) st = periodicGo env ns st := by
            simp only [periodicGo, hr, if_pos h1]
          rw [hres]
          exact ih st name role hnd2 hmem2 hget
        · by_cases h2 : rn.lastRotated = 0
          · have hres : periodicGo env (n :: ns) st = periodicGo env ns st := by
              simp only [periodicGo, hr, if_neg h1, if_pos h2]
            rw [hres]
            exact ih st name role hnd2 hmem2 hget
          · by_cases h3 : rn.lastRotated + rn.rotationPeriod < env.now
            · have hres : (periodicGo env (n :: ns) st).2 =
                  n :: (periodicGo env ns (rotateRole env st n).state).2 := by
                simp only [periodicGo, hr, if_neg h1, if_neg h2, if_pos h3]
              rw [hres]
              have hget2 : getRole (rotateRole env st n).state name = some role := by
                rw [rotateRole_getRole_ne env st n name hname, hget]
              have hiff := ih ((rotateRole env st n).state) name role hnd2 hmem2 hget2
              rw [List.mem_cons]
              constructor
              · rintro (h | h)
                · exact absurd h hname
                · exact hiff.mp h
              · intro h
                exact Or.inr (hiff.mpr h)
            · have hres : periodicGo env (n :: ns) st = periodicGo env ns st := by
                simp only [periodicGo, hr, if_neg h1, if_neg h2, if_neg h3]
              rw [hres]
              exact ih st name role hnd2 hmem2 hget

theorem stateInvariant_getRole {st : BackendState} {name : String} {role : RoleEntry}
    (hinv : stateInvariant st) (h : getRole st name = some role) :
    (role.password = "" ↔ role.lastRotated = 0) :=
  hinv (name, role) (alookup_mem h)

theorem rotateRole_stateInvariant (env : RotateEnv) (st : BackendState) (name : String)
    (hinv : stateInvariant st) (hnow : env.now ≠ 0) :
    stateInvariant (rotateRole env st name).state := by
  cases hr : getRole st name with
  | none => simpa only [rotateRole, hr] using hinv
  | some role =>
    cases hb : getBroker st role.broker with
    | none => simpa only [rotateRole, hr, hb] using hinv
    | some cfg =>
      cases hc : (NewSEMPClient cfg).ChangePassword env.parse env.remote
          role.cliUsername (rotationPassword env.rands) with
      | error e => simpa only [rotateRole, hr, hb, generatePassword_default, hc] using hinv
      | ok u =>
        cases hp : env.putResult with
        | some perr =>
          simpa only [rotateRole, hr, hb, generatePassword_default, hc, hp] using hinv
        | none =>
          simp only [rotateRole, hr, hb, generatePassword_default, hc, hp]
          intro p hp2
          rcases mem_aupdate hp2 with hmem | hval
          · exact hinv p hmem
          · rw [hval]
            constructor
            · intro hpw
              exact absurd hpw (rotationPassword_ne_empty env.rands)
            · intro hlr
              exact absurd hlr hnow

theorem pathRolesWrite_stateInvariant (st : BackendState)
    (name broker cliUsername : String) (rp : Nat) (hinv : stateInvariant st) :
    stateInvariant (pathRolesWrite st name broker cliUsername rp).2 := by
  by_cases hb0 : broker = ""
  · simpa only [pathRolesWrite, if_pos hb0] using hinv
  · by_cases hc0 : cliUsername = ""
    · simpa only [pathRolesWrite, if_neg hb0, if_pos hc0] using hinv
    · cases hbk : getBroker st broker with
      | none => simpa only [pathRolesWrite, if_neg hb0, if_neg hc0, hbk] using hinv
      | some cfg =>
        cases hex : getRole st name with
        | none =>
          simp only [pathRolesWrite, if_neg hb0, if_neg hc0, hbk, hex]
          intro p hp2
          rcases mem_aupdate hp2 with hmem | hval
          · exact hinv p hmem
          · rw [hval]
            simp
        | some e =>
          simp only [pathRolesWrite, if_neg hb0, if_neg hc0, hbk, hex]
          intro p hp2
          rcases mem_aupdate hp2 with hmem | hval
          · exact hinv p hmem
          · rw [hval]
            simpa using stateInvariant_getRole hinv hex

theorem periodicGo_stateInvariant (env : RotateEnv) (hnow : env.now ≠ 0)
    (ns : List String) :
    ∀ st : BackendState, stateInvariant st → stateInvariant (periodicGo env ns st).1 := by
  induction ns with
  | nil =>
    intro st hinv
    simpa only [periodicGo] using hinv
  | cons n ns ih =>
    intro st hinv
    cases hr : getRole st n with
    | none =>
      simp only [periodicGo, hr]
      exact ih st hinv
    | some role =>
      by_cases h1 : role.rotationPeriod = 0
      · simp only [periodicGo, hr, if_pos h1]
        exact ih st hinv
      · by_cases h2 : role.lastRotated = 0
        · simp only [periodicGo, hr, if_neg h1, if_pos h2]
          exact ih st hinv
        · by_cases h3 : role.lastRotated + role.rotationPeriod < env.now
          · simp only [periodicGo, hr, if_neg h1, if_neg h2, if_pos h3]
            exact ih _ (rotateRole_stateInvariant env st n hinv hnow)
          · simp only [periodicGo, hr, if_neg h1, if_neg h2, if_neg h3]
            exact ih st hinv

theorem containsSeg_of_eq (xs ys pre post : List Char)
    (h : ys = pre ++ xs ++ post) : containsSeg xs ys = true := by
  rw [h]
  exact containsSeg_append xs pre post

theorem rotateRole_result_ne_ok_of_remote_fail (env : RotateEnv)
    (st : BackendState) (name : String)
    (h : remoteOk env.parse env.remote = false) :
    (rotateRole env st name).result ≠ RotateResult.ok := by
  cases hr : getRole st name with
  | none =>
    simp only [rotateRole, hr]
    intro hx
    exact RotateResult.noConfusion hx
  | some role =>
    cases hb : getBroker st role.broker with
    | none =>
      simp only [rotateRole, hr, hb]
      intro hx
      exact RotateResult.noConfusion hx
    | some cfg =>
      cases hc : (NewSEMPClient cfg).ChangePassword env.parse env.remote
          role.cliUsername (rotationPassword env.rands) with
      | error e =>
        simp only [rotateRole, hr, hb, generatePassword_default, hc]
        intro hx
        exact RotateResult.noConfusion hx
      | ok u =>
        exfalso
        cases u
        have := (ChangePassword_ok_iff (NewSEMPClient cfg) env.parse env.remote
          role.cliUsername (rotationPassword env.rands)).mp hc
        rw [h] at this
        exact Bool.false_ne_true this

/-! ## Claims -/

/-- C2: whenever the remote `ChangePassword` exchange is a failure of
any kind (transport error, non-200 status, unparsable body, or
non-success result code — exactly the outcomes with
`remoteOk … = false`), `rotateRole` returns a failure (its result is
never the success value) and leaves the entire stored state, and in
particular the named account's record with its secret and last-rotated
timestamp, byte-identical to its value before the call. -/
theorem claim_C2 (env : RotateEnv) (st : BackendState) (name : String)
    (hfail : remoteOk env.parse env.remote = false) :
    (rotateRole env st name).result ≠ RotateResult.ok ∧
    (rotateRole env st name).state = st ∧
    getRole (rotateRole env st name).state name = getRole st name := by
  have h := rotateRole_state_unchanged_of_remote_fail env st name hfail
  exact ⟨rotateRole_result_ne_ok_of_remote_fail env st name hfail, h, by rw [h]⟩

/-- Witness for C2 at a concrete transport failure: the call fails and
the state is untouched. -/
theorem claim_C2_witness :
    remoteOk envTransport.parse envTransport.remote = false ∧
    (rotateRole envTransport testState "test-role").result ≠ RotateResult.ok ∧
    (rotateRole envTransport testState "test-role").state = testState :=
  ⟨by decide, (claim_C2 envTransport testState "test-role" (by decide)).1,
   (claim_C2 envTransport testState "test-role" (by decide)).2.1⟩

/-- C8: on a remote `ChangePassword` failure with diagnostic `e`, the
caller-facing response of `rotateRole` is the sanitized
`rotateFailMsg name broker` — a value depending only on the role and
broker names, never on the remote-supplied diagnostic — while the log
line carries the full diagnostic `e`. -/
theorem claim_C8 (env : RotateEnv) (st : BackendState) (name : String)
    (role : RoleEntry) (cfg : BrokerConfig) (e : String)
    (hr : getRole st name = some role) (hb : getBroker st role.broker = some cfg)
    (hc : (NewSEMPClient cfg).ChangePassword env.parse env.remote role.cliUsername
      (rotationPassword env.rands) = .error e) :
    (rotateRole env st name).result = .errorResponse (rotateFailMsg name role.broker) ∧
    (rotateRole env st name).log = [⟨"SEMP password change failed",
      [("role", name), ("cli_username", role.cliUsername),
       ("broker", role.broker), ("error", e)]⟩] := by
  rw [rotateRole_remote_fail_spec env st name role cfg e hr hb hc]
  exact ⟨rfl, rfl⟩

/-- Witness for C8 at the remote-side-rejection scenario: HTTP 200 with
result code `fail` and diagnostic `Invalid username`; the response
message does not contain the diagnostic, the log line does. -/
theorem claim_C8_witness :
    ((NewSEMPClient testBroker).ChangePassword testParse envFail.remote "monitor"
      (rotationPassword envFail.rands) =
        .error "SEMP command failed: Invalid username") ∧
    (rotateRole envFail testState "test-role").result =
      .errorResponse (rotateFailMsg "test-role" "test-broker") ∧
    (rotateRole envFail testState "test-role").log =
      [⟨"SEMP password change failed",
        [("role", "test-role"), ("cli_username", "monitor"),
         ("broker", "test-broker"),
         ("error", "SEMP command failed: Invalid username")]⟩] ∧
    containsSeg "Invalid username".data (rotateFailMsg "test-role" "test-broker").data =
      false ∧
    containsSeg "Invalid username".data "SEMP command failed: Invalid username".data =
      true := by
  refine ⟨by rfl, ?_, ?_, by decide, by decide⟩
  · exact (claim_C8 envFail testState "test-role" testRole testBroker
      "SEMP command failed: Invalid username" (by decide) (by decide) (by rfl)).1
  · exact (claim_C8 envFail testState "test-role" testRole testBroker
      "SEMP command failed: Invalid username" (by decide) (by decide) (by rfl)).2

/-- C9: when the remote change succeeds but the storage write fails,
`rotateRole` returns a Go error (not an ordinary `ErrorResponse`) whose
message contains the distinct `manual recovery required` marker, leaves
the stored state untouched, and logs the full context including the new
secret under `new_password`. -/
theorem claim_C9 (env : RotateEnv) (st : BackendState) (name : String)
    (role : RoleEntry) (cfg : BrokerConfig) (perr : String)
    (hr : getRole st name = some role) (hb : getBroker st role.broker = some cfg)
    (hok : remoteOk env.parse env.remote = true) (hput : env.putResult = some perr) :
    (rotateRole env st name).result = .goError ("storing rotated password for " ++
      goQuote name ++ ": broker password was changed but Vault storage failed, " ++
      "manual recovery required: " ++ perr) ∧
    containsSeg "manual recovery required".data ("storing rotated password for " ++
      goQuote name ++ ": broker password was changed but Vault storage failed, " ++
      "manual recovery required: " ++ perr).data = true ∧
    (rotateRole env st name).state = st ∧
    (rotateRole env st name).log = [⟨"password changed on broker but failed to " ++
      "store in Vault; manual recovery required",
      [("role", name), ("cli_username", role.cliUsername),
       ("broker", role.broker), ("new_password", rotationPassword env.rands),
       ("error", perr)]⟩] := by
  have hspec := rotateRole_putfail_spec env st name role cfg perr hr hb hok hput
  refine ⟨by rw [hspec], ?_, by rw [hspec], by rw [hspec]; rfl⟩
  apply containsSeg_of_eq _ _
    ("storing rotated password for ".data ++ ('"' :: (name.data ++ ('"' ::
      ": broker password was changed but Vault storage failed, ".data))))
    (':' :: (' ' :: perr.data))
  simp [goQuote, String.data_append, List.append_assoc, List.cons_append]

/-- Witness for C9: remote change succeeded, storage write failed. -/
theorem claim_C9_witness :
    remoteOk envPutFail.parse envPutFail.remote = true ∧
    ((rotateRole envPutFail testState "test-role").result =
      .goError ("storing rotated password for " ++ goQuote "test-role" ++
        ": broker password was changed but Vault storage failed, " ++
        "manual recovery required: " ++ "storage backend unavailable") ∧
    containsSeg "manual recovery required".data ("storing rotated password for " ++
      goQuote "test-role" ++ ": broker password was changed but Vault storage failed, " ++
      "manual recovery required: " ++ "storage backend unavailable").data = true ∧
    (rotateRole envPutFail testState "test-role").state = testState ∧
    (rotateRole envPutFail testState "test-role").log =
      [⟨"password changed on broker but failed to " ++
        "store in Vault; manual recovery required",
        [("role", "test-role"), ("cli_username", testRole.cliUsername),
         ("broker", testRole.broker),
         ("new_password", rotationPassword envPutFail.rands),
         ("error", "storage backend unavailable")]⟩]) :=
  ⟨by decide, claim_C9 envPutFail testState "test-role" testRole testBroker
    "storage backend unavailable" (by decide) (by decide) (by decide) rfl⟩

/-- C1 counterexample: with the role and broker of the Go test fixture,
two back-to-back `rotateRole` calls both succeed — the second is not
RateLimited — and each makes one remote call (two in total) and stores
a fresh secret (two stored-secret changes in total). -/
theorem claim_C1_cex :
    (rotateRole envOk testState "test-role").result = .ok ∧
    (rotateRole envOk testState "test-role").remoteCalls = 1 ∧
    (rotateRole envOk2 (rotateRole envOk testState "test-role").state "test-role").result =
      .ok ∧
    (rotateRole envOk2 (rotateRole envOk testState "test-role").state "test-role").remoteCalls =
      1 ∧
    (getRole (rotateRole envOk testState "test-role").state "test-role").map
      RoleEntry.password ≠ some testRole.password ∧
    (getRole (rotateRole envOk2 (rotateRole envOk testState "test-role").state
        "test-role").state "test-role").map RoleEntry.password ≠
      (getRole (rotateRole envOk testState "test-role").state "test-role").map
        RoleEntry.password := by
  decide

/-- C1 (amended): `rotateRole` enforces no inter-rotation cooldown and
never returns a RateLimited-class error: whenever the role and broker
exist and the remote exchange and storage write succeed, every call —
regardless of how recently the account was last rotated — succeeds,
makes exactly one remote call, and overwrites the stored secret and
timestamp; so two back-to-back calls make two remote calls and two
stored-secret writes, and the second call succeeds. -/
theorem claim_C1 (env1 env2 : RotateEnv) (st : BackendState) (name : String)
    (role : RoleEntry) (cfg : BrokerConfig)
    (hr : getRole st name = some role) (hb : getBroker st role.broker = some cfg)
    (hok1 : remoteOk env1.parse env1.remote = true) (hput1 : env1.putResult = none)
    (hok2 : remoteOk env2.parse env2.remote = true) (hput2 : env2.putResult = none) :
    (rotateRole env1 st name).result = .ok ∧
    (rotateRole env1 st name).remoteCalls = 1 ∧
    (rotateRole env2 (rotateRole env1 st name).state name).result = .ok ∧
    (rotateRole env2 (rotateRole env1 st name).state name).remoteCalls = 1 ∧
    getRole (rotateRole env1 st name).state name = some { role with
      password := rotationPassword env1.rands, lastRotated := env1.now } ∧
    getRole (rotateRole env2 (rotateRole env1 st name).state name).state name =
      some { role with
        password := rotationPassword env2.rands, lastRotated := env2.now } := by
  have h1 := rotateRole_success_spec env1 st name role cfg hr hb hok1 hput1
  have hg1 : getRole (rotateRole env1 st name).state name = some { role with
      password := rotationPassword env1.rands, lastRotated := env1.now } := by
    rw [h1]
    exact alookup_aupdate_self st.roles name _
  have hb1 : getBroker (rotateRole env1 st name).state ({ role with
      password := rotationPassword env1.rands, lastRotated := env1.now } :
        RoleEntry).broker = some cfg := by
    rw [h1]
    exact hb
  have h2 := rotateRole_success_spec env2 (rotateRole env1 st name).state name
    { role with password := rotationPassword env1.rands, lastRotated := env1.now }
    cfg hg1 hb1 hok2 hput2
  refine ⟨by rw [h1], by rw [h1], by rw [h2], by rw [h2], hg1, ?_⟩
  rw [h2]
  exact alookup_aupdate_self _ name _

/-- Witness for C1 at the Go test fixture, back-to-back calls. -/
theorem claim_C1_witness :
    remoteOk envOk.parse envOk.remote = true ∧
    ((rotateRole envOk testState "test-role").result = .ok ∧
    (rotateRole envOk testState "test-role").remoteCalls = 1 ∧
    (rotateRole envOk2 (rotateRole envOk testState "test-role").state "test-role").result =
      .ok ∧
    (rotateRole envOk2 (rotateRole envOk testState "test-role").state
      "test-role").remoteCalls = 1 ∧
    getRole (rotateRole envOk testState "test-role").state "test-role" =
      some { testRole with
        password := rotationPassword envOk.rands, lastRotated := envOk.now } ∧
    getRole (rotateRole envOk2 (rotateRole envOk testState "test-role").state
        "test-role").state "test-role" =
      some { testRole with
        password := rotationPassword envOk2.rands, lastRotated := envOk2.now }) :=
  ⟨by decide, claim_C1 envOk envOk2 testState "test-role" testRole testBroker
    (by decide) (by decide) (by decide) rfl (by decide) rfl⟩

/-- C6: at the failing input — an account whose stored secret-length
field is 64 — a successful rotation stores a secret of the fixed
default length 32, not 64: `rotateRole` passes `defaultPasswordLength`
to the generator unconditionally and never reads the account's
`passwordLength` field. -/
theorem claim_C6 :
    role64.passwordLength = 64 ∧
    (rotateRole envOk state64 "role64").result = .ok ∧
    (getRole (rotateRole envOk state64 "role64").state "role64").map
      (fun r => r.password.length) = some defaultPasswordLength ∧
    defaultPasswordLength ≠ 64 := by
  decide

/-- C3 counterexample: HTTP 201 — a 2xx status — with a body that
parses to the success sentinel is still classified as a failure,
because the code compares the status against exactly 200, not against
the 2xx range. -/
theorem claim_C3_cex :
    (200 ≤ 201 ∧ 201 < 300) ∧
    parseOkAny "body" = .ok { executeResultCode := "ok", parseError := "" } ∧
    (NewSEMPClient testBroker).ChangePassword parseOkAny (.response 201 "body")
      "monitor" "pw" = .error "SEMP returned HTTP 201: body" :=
  ⟨by decide, rfl, rfl⟩

/-- C3 (amended): `ChangePassword` classifies every transport error and
every response whose status is not exactly 200 as a failure — the
non-200 failure carrying the raw body as diagnostic detail — and
classifies a status-200 response as success if and only if the body
parses as the reply shape and its result code equals the `"ok"`
sentinel. -/
theorem claim_C3 (parse : String → Except String SempReply) (c : SEMPClient)
    (u pw : String) :
    (∀ e, c.ChangePassword parse (.transportError e) u pw ≠ .ok ()) ∧
    (∀ status body, status ≠ 200 →
      ∃ m, c.ChangePassword parse (.response status body) u pw = .error m ∧
        containsSeg body.data m.data = true) ∧
    (∀ body, c.ChangePassword parse (.response 200 body) u pw = .ok () ↔
      ∃ r, parse body = .ok r ∧ r.executeResultCode = "ok") := by
  refine ⟨?_, ?_, ?_⟩
  · intro e
    simp [SEMPClient.ChangePassword]
  · intro status body hs
    refine ⟨"SEMP returned HTTP " ++ toString status ++ ": " ++ body, ?_, ?_⟩
    · simp [SEMPClient.ChangePassword, hs]
    · apply containsSeg_of_eq _ _
        (("SEMP returned HTTP " ++ toString status ++ ": ").data) []
      simp [String.data_append, List.append_assoc]
  · intro body
    rw [ChangePassword_ok_iff]
    cases hp : parse body with
    | error e => simp [remoteOk, hp]
    | ok r =>
      by_cases hc : r.executeResultCode = "ok"
      · simp [remoteOk, hp, hc]
      · simp [remoteOk, hp, hc]

/-- Witness for C3: a concrete non-200 response is a failure carrying
the body, and a concrete 200 response with the ok sentinel succeeds. -/
theorem claim_C3_witness :
    ((500 : Nat) ≠ 200 ∧
      ∃ m, (NewSEMPClient testBroker).ChangePassword testParse
          (.response 500 "oops") "monitor" "pw" = .error m ∧
        containsSeg "oops".data m.data = true) ∧
    ((NewSEMPClient testBroker).ChangePassword testParse (.response 200 okBody)
        "monitor" "pw" = .ok () ↔
      ∃ r, testParse okBody = .ok r ∧ r.executeResultCode = "ok") :=
  ⟨⟨by decide, (claim_C3 testParse (NewSEMPClient testBroker) "monitor" "pw").2.1
      500 "oops" (by decide)⟩,
   (claim_C3 testParse (NewSEMPClient testBroker) "monitor" "pw").2.2 okBody⟩

/-- C4 counterexample: a role with period 5 last rotated at 10, on a
tick whose clock reads exactly 15 = 10 + 5.  The claim's predicate
`now >= lastRotated + rotationInterval` holds, yet the tick rotates
nothing and leaves the state untouched, because the code requires
`time.Now().After(...)`, which is strict. -/
theorem claim_C4_cex :
    roleDue.rotationPeriod ≠ 0 ∧ roleDue.lastRotated ≠ 0 ∧
    envBoundary.now = roleDue.lastRotated + roleDue.rotationPeriod ∧
    (periodicFunc envBoundary stateDue).2 = [] ∧
    (periodicFunc envBoundary stateDue).1 = stateDue := by
  decide

/-- C4 (amended): on a tick at time `now`, a stored account is driven
through `rotateRole` if and only if its rotation period is non-zero,
its last-rotated time is non-zero, and `lastRotated + rotationPeriod`
is strictly below `now`; in particular a never-rotated account and a
zero-period account are never auto-rotated. -/
theorem claim_C4 (env : RotateEnv) (st : BackendState) (name : String)
    (role : RoleEntry) (hnd : (st.roles.map Prod.fst).Nodup)
    (hget : getRole st name = some role) :
    name ∈ (periodicFunc env st).2 ↔
      (role.rotationPeriod ≠ 0 ∧ role.lastRotated ≠ 0 ∧
       role.lastRotated + role.rotationPeriod < env.now) :=
  periodicGo_mem_iff env (st.roles.map Prod.fst) st name role hnd
    (alookup_mem_keys hget) hget

/-- Witness for C4 on a due role well past its deadline. -/
theorem claim_C4_witness :
    (stateDue.roles.map Prod.fst).Nodup ∧
    ("due-role" ∈ (periodicFunc envOk stateDue).2 ↔
      (roleDue.rotationPeriod ≠ 0 ∧ roleDue.lastRotated ≠ 0 ∧
       roleDue.lastRotated + roleDue.rotationPeriod < envOk.now)) :=
  ⟨by decide, claim_C4 envOk stateDue "due-role" roleDue (by decide) (by decide)⟩

/-- C5: at the failing input 129 — outside the documented [16,128]
range — `generatePassword` succeeds with a 129-character secret rather
than failing validation; the minimum bound is enforced (15 fails) and
the in-range length 128 behaves as documented.  The code checks only
`length < 16` and has no maximum-length check. -/
theorem claim_C5 :
    (generatePassword (fun _ => 0) 129).isOk = true ∧
    (generatePassword (fun _ => 0) 129).map String.length = .ok 129 ∧
    (generatePassword (fun _ => 0) 15).isOk = false ∧
    (generatePassword (fun _ => 0) 128).map String.length = .ok 128 :=
  ⟨by decide, rfl, by decide, rfl⟩

/-- C7: for every protocol-version tag, account name, and secret (over
XML-representable characters), the constructed request body is exactly
the well-formed document shape the strict reader accepts, with each
supplied string confined to its element as escaped character data whose
unescaping returns the original string — so even `</name><inject>`
never appears as structural markup. -/
theorem claim_C7 (v u p : String)
    (hv : ∀ c ∈ v.data, xmlValidChar c = true)
    (hu : ∀ c ∈ u.data, xmlValidChar c = true)
    (hp : ∀ c ∈ p.data, xmlValidChar c = true) :
    parseChangePasswordXML (buildChangePasswordXML v u p) =
      some (escapeXML v, escapeXML u, escapeXML p) ∧
    unescapeXML (escapeXML v) = v ∧ unescapeXML (escapeXML u) = u ∧
    unescapeXML (escapeXML p) = p :=
  ⟨parse_build v u p, unescapeXML_escapeXML v hv, unescapeXML_escapeXML u hu,
   unescapeXML_escapeXML p hp⟩

/-- Witness for C7 at the injection-attempt scenario. -/
theorem claim_C7_witness :
    (∀ c ∈ ("</name><inject>" : String).data, xmlValidChar c = true) ∧
    (parseChangePasswordXML (buildChangePasswordXML "soltr/10_4" "</name><inject>"
        "pa&ss") =
      some (escapeXML "soltr/10_4", escapeXML "</name><inject>", escapeXML "pa&ss") ∧
    unescapeXML (escapeXML "soltr/10_4") = "soltr/10_4" ∧
    unescapeXML (escapeXML "</name><inject>") = "</name><inject>" ∧
    unescapeXML (escapeXML "pa&ss") = "pa&ss") :=
  ⟨by decide, claim_C7 "soltr/10_4" "</name><inject>" "pa&ss"
    (by decide) (by decide) (by decide)⟩

/-- C10: the invariant that a stored role's secret is empty exactly
when its last-rotated timestamp is the zero value is preserved by role
create and update (`pathRolesWrite`), by on-demand rotation
(`rotateRole`), and by the periodic tick (`periodicFunc`), for any
clock that never reads the zero time. -/
theorem claim_C10 (env : RotateEnv) (st : BackendState)
    (name broker cliUsername : String) (rp : Nat)
    (hinv : stateInvariant st) (hnow : env.now ≠ 0) :
    stateInvariant (pathRolesWrite st name broker cliUsername rp).2 ∧
    stateInvariant (rotateRole env st name).state ∧
    stateInvariant (periodicFunc env st).1 :=
  ⟨pathRolesWrite_stateInvariant st name broker cliUsername rp hinv,
   rotateRole_stateInvariant env st name hinv hnow,
   periodicGo_stateInvariant env hnow (st.roles.map Prod.fst) st hinv⟩

/-- Witness for C10 on the test fixture state. -/
theorem claim_C10_witness :
    stateInvariant testState ∧
    (stateInvariant (pathRolesWrite testState "test-role" "test-broker" "monitor" 0).2 ∧
     stateInvariant (rotateRole envOk testState "test-role").state ∧
     stateInvariant (periodicFunc envOk testState).1) :=
  ⟨by decide, claim_C10 envOk testState "test-role" "test-broker" "monitor" 0
    (by decide) (by decide)⟩
